import Mathlib

/-!
Verification of the iridium_assembler pipeline (a two-pass assembler for a
16-bit RISC-style ISA) against its natural-language specification.

The Rust sources are shallowly embedded:
  * `src/token_types.rs`  → the `InstrTokens` / `DataTokens` / `TextTokens`
    record structures and the `FileTokens` sum;
  * `src/generate_code.rs` → `OPCODE_BINARIES`, `REGISTER_BINARIES`,
    `get_binary_from_tokens`, `generate_binary`;
  * `src/label_table.rs`  → `generate_label_table`;
  * `src/pseudo_substitution.rs` → `substitute_pseudo_instrs`,
    `substitute_labels`;
  * `src/validation.rs`   → `validate_int_immediate` and the line validators
    needed by the claims;
  * `src/token_generator.rs` → `generate_instr_tokens`,
    `generate_data_tokens` (the `.int` payload path);
  * `src/main.rs`         → the section-mode register of
    `process_file_into_tokens`.

Machine integers: Rust `u16`/`u64` values are modelled as `Nat` (all the
operations used by the code — `|`, `&`, `<<`, `>>` on in-range values —
never overflow), `i64` as `Int` with explicit two's-complement reduction
`% 2^64` where the code casts with `as u64`.  A Rust `panic!` /
`.unwrap()` failure is modelled by a dedicated result alternative
(`none` or a `panicked` constructor).
-/

namespace Iridium

/-- `InstrTokens` from `src/token_types.rs`: the components of one
instruction record.  `immediate: Option<u64>` is modelled as `Option Nat`. -/
structure InstrTokens where
  label : Option String
  opcode : String
  operand_a : Option String
  operand_b : Option String
  operand_c : Option String
  immediate : Option Nat
  op_label : Option String
deriving Repr, DecidableEq

/-- `DataTokens` from `src/token_types.rs`: a data directive lowered to
16-bit words (`bytes: Vec<u16>` modelled as `List Nat`). -/
structure DataTokens where
  label : Option String
  category : String
  bytes : List Nat
deriving Repr, DecidableEq

/-- `TextTokens` from `src/token_types.rs`. -/
structure TextTokens where
  label : Option String
  bytes : List Nat
deriving Repr, DecidableEq

/-- The `FileTokens` sum from `src/token_types.rs`. -/
inductive FileTokens where
  | InstrTokens (t : InstrTokens)
  | DataTokens (t : DataTokens)
  | TextTokens (t : TextTokens)
deriving Repr, DecidableEq

/-- The `OPCODE_BINARIES` phf map from `src/generate_code.rs`.
`ATOM` is accepted by the validator but has no entry here. -/
def OPCODE_BINARIES (s : String) : Option Nat :=
  if s = "NOP" then some 0x0000
  else if s = "ADD" then some 0x1000
  else if s = "SUB" then some 0x2000
  else if s = "ADDI" then some 0x3000
  else if s = "SUBI" then some 0x4000
  else if s = "SLL" then some 0x5000
  else if s = "SRL" then some 0x6000
  else if s = "SRA" then some 0x7000
  else if s = "NAND" then some 0x8000
  else if s = "OR" then some 0x9000
  else if s = "LOAD" then some 0xA000
  else if s = "STORE" then some 0xB000
  else if s = "MOVUI" then some 0xC000
  else if s = "MOVLI" then some 0xD000
  else if s = "ADDC" then some 0xF000
  else if s = "SUBC" then some 0xF100
  else if s = "JUMP" then some 0xF200
  else if s = "JAL" then some 0xF300
  else if s = "CMP" then some 0xF400
  else if s = "BEQ" then some 0xF500
  else if s = "BNE" then some 0xF600
  else if s = "BLT" then some 0xF700
  else if s = "BGT" then some 0xF800
  else if s = "IN" then some 0xF900
  else if s = "OUT" then some 0xFA00
  else if s = "syscall" then some 0xFC00
  else if s = "HALT" then some 0xFFFF
  else none

/-- The `REGISTER_BINARIES` phf map from `src/generate_code.rs`. -/
def REGISTER_BINARIES (s : String) : Option Nat :=
  if s = "$zero" then some 0x0
  else if s = "$g0" then some 0x1
  else if s = "$g1" then some 0x2
  else if s = "$g2" then some 0x3
  else if s = "$g3" then some 0x4
  else if s = "$g4" then some 0x5
  else if s = "$g5" then some 0x6
  else if s = "$g6" then some 0x7
  else if s = "$g7" then some 0x8
  else if s = "$g8" then some 0x9
  else if s = "$g9" then some 0xA
  else if s = "$ua" then some 0xB
  else if s = "$sp" then some 0xC
  else if s = "$fp" then some 0xD
  else if s = "$ra" then some 0xE
  else if s = "$pc" then some 0xF
  else none

/-- Result of `get_binary_from_tokens`.  The Rust function returns
`Result<Vec<u16>, TokenTypeError>` but can also panic on an `.unwrap()`
of a failed map lookup or a missing immediate; `panicked` models those
panics, `err` the returned `TokenTypeError`. -/
inductive EncodeResult where
  | ok (words : List Nat)
  | err (msg : String)
  | panicked
deriving Repr, DecidableEq

/-- `get_binary_from_tokens` from `src/generate_code.rs` (lines 27-92):
encodes one record into 16-bit words.  Every `.unwrap()` of the Rust code
is modelled by a match whose failure case yields `panicked`. -/
def get_binary_from_tokens (tokens : FileTokens) : EncodeResult :=
  match tokens with
  | .DataTokens t => .ok t.bytes
  | .TextTokens t => .ok t.bytes
  | .InstrTokens t =>
    match OPCODE_BINARIES t.opcode with
    | none => .panicked
    | some opcode =>
      let binary0 : Nat := 0x0000 ||| opcode
      let afterRegA : Option Nat :=
        if opcode ≠ 0xFC00 then
          match REGISTER_BINARIES (t.operand_a.getD "$zero") with
          | none => none
          | some register_a =>
            if binary0 &&& 0xF000 = 0xF000 then some (binary0 ||| (register_a <<< 4))
            else some (binary0 ||| (register_a <<< 8))
        else some binary0
      match afterRegA with
      | none => .panicked
      | some binary =>
        if opcode = 0x0000 ∨ opcode = 0xFFFF then
          .ok [opcode]
        else if opcode = 0x1000 ∨ opcode = 0x2000 ∨ opcode = 0x5000 ∨ opcode = 0x6000 ∨
                opcode = 0x7000 ∨ opcode = 0x8000 ∨ opcode = 0x9000 ∨ opcode = 0xA000 ∨
                opcode = 0xB000 then
          match REGISTER_BINARIES (t.operand_b.getD "$zero"),
                REGISTER_BINARIES (t.operand_c.getD "$zero") with
          | some rb, some rc => .ok [binary ||| (rb <<< 4) ||| rc]
          | _, _ => .panicked
        else if opcode = 0x3000 ∨ opcode = 0x4000 then
          match REGISTER_BINARIES (t.operand_b.getD "$zero"), t.immediate with
          | some rb, some imm => .ok [binary ||| (rb <<< 4) ||| (imm &&& 0x000F)]
          | _, _ => .panicked
        else if opcode = 0xC000 ∨ opcode = 0xD000 then
          match REGISTER_BINARIES (t.operand_b.getD "$zero"), t.immediate with
          | some rb, some imm => .ok [binary ||| (rb <<< 4) ||| (imm &&& 0x00FF)]
          | _, _ => .panicked
        else if opcode = 0xF000 ∨ opcode = 0xF100 ∨ opcode = 0xF200 ∨ opcode = 0xF300 ∨
                opcode = 0xF400 ∨ opcode = 0xF500 ∨ opcode = 0xF600 ∨ opcode = 0xF700 ∨
                opcode = 0xF800 then
          match REGISTER_BINARIES (t.operand_b.getD "$zero") with
          | some rb => .ok [binary ||| rb]
          | none => .panicked
        else if opcode = 0xF900 ∨ opcode = 0xFA00 then
          match t.immediate with
          | some imm => .ok [binary ||| (imm &&& 0x000F)]
          | none => .panicked
        else if opcode = 0xFC00 then
          match t.immediate with
          | some imm => .ok [binary ||| (imm &&& 0x00FF)]
          | none => .panicked
        else
          .err "not a valid opcode"

example : get_binary_from_tokens (.InstrTokens ⟨none, "ADD", some "$g0", some "$zero", some "$g1", none, none⟩) = .ok [0x1102] := by decide
example : get_binary_from_tokens (.InstrTokens ⟨none, "ADDI", some "$g8", some "$g9", none, some 10, none⟩) = .ok [0x39AA] := by decide
example : get_binary_from_tokens (.InstrTokens ⟨none, "MOVUI", some "$g5", none, none, some 0x75, none⟩) = .ok [0xC675] := by decide
example : get_binary_from_tokens (.InstrTokens ⟨none, "syscall", none, none, none, some 19, none⟩) = .ok [0xFC13] := by decide
example : get_binary_from_tokens (.InstrTokens ⟨none, "BGT", some "$g3", some "$g4", none, none, none⟩) = .ok [0xF845] := by decide
example : get_binary_from_tokens (.InstrTokens ⟨none, "HALT", none, none, none, none, none⟩) = .ok [0xFFFF] := by decide

/-- The little-endian byte split of one 16-bit word, from
`src/generate_code.rs` lines 123-124: low byte `binary & 0x00FF` first,
then `(binary & 0xFF00) >> 8`. -/
def word_to_bytes (w : Nat) : List Nat :=
  [w &&& 0x00FF, (w &&& 0xFF00) >>> 8]

/-- Little-endian bytes of a word vector. -/
def words_to_bytes (ws : List Nat) : List Nat :=
  ws.flatMap word_to_bytes

/-- The bytes of `"data:\0".as_bytes()` written by `generate_binary`. -/
def data_marker : List Nat := [100, 97, 116, 97, 58, 0]

/-- The bytes of `"text:\0".as_bytes()` written by `generate_binary`. -/
def text_marker : List Nat := [116, 101, 120, 116, 58, 0]

/-- The main loop of `generate_binary` (`src/generate_code.rs` lines
102-126): walks the record stream with the section mode (initially `'c'`),
writing instruction and data words inline (the `"data:\0"` marker on the
first data record) and postponing text records.  Returns the bytes written
so far and the postponed text records; `none` models a panic of the
`get_binary_from_tokens(..).unwrap()` calls. -/
def generate_binary_loop : List FileTokens → Char → List FileTokens → List Nat →
    Option (List Nat × List FileTokens)
  | [], _, text_instrs, out => some (out, text_instrs)
  | token :: rest, section_mode, text_instrs, out =>
    match token with
    | .InstrTokens _ =>
      match get_binary_from_tokens token with
      | .ok ws => generate_binary_loop rest section_mode text_instrs (out ++ words_to_bytes ws)
      | _ => none
    | .TextTokens _ =>
      generate_binary_loop rest section_mode (text_instrs ++ [token]) out
    | .DataTokens _ =>
      let mode2 := if section_mode = 'c' then 'd' else section_mode
      let out2 := if section_mode = 'c' then out ++ data_marker else out
      match get_binary_from_tokens token with
      | .ok ws => generate_binary_loop rest mode2 text_instrs (out2 ++ words_to_bytes ws)
      | _ => none

/-- The trailing text-section write of `generate_binary`
(`src/generate_code.rs` lines 128-137): encode and append each postponed
text record. -/
def write_text_instrs : List FileTokens → List Nat → Option (List Nat)
  | [], out => some out
  | token :: rest, out =>
    match get_binary_from_tokens token with
    | .ok ws => write_text_instrs rest (out ++ words_to_bytes ws)
    | _ => none

/-- `generate_binary` from `src/generate_code.rs` (lines 96-141), modelled
as the byte sequence written to the output file (`none` models a panic). -/
def generate_binary (tokens : List FileTokens) : Option (List Nat) :=
  match generate_binary_loop tokens 'c' [] [] with
  | none => none
  | some (out, text_instrs) =>
    if text_instrs.isEmpty then some out
    else write_text_instrs text_instrs (out ++ text_marker)

/-- Record-kind discriminators. -/
def is_instr : FileTokens → Bool
  | .InstrTokens _ => true
  | _ => false

def is_data : FileTokens → Bool
  | .DataTokens _ => true
  | _ => false

def is_text : FileTokens → Bool
  | .TextTokens _ => true
  | _ => false

/-- The words a record encodes to (meaningful when encoding succeeds). -/
def enc_words (t : FileTokens) : List Nat :=
  match get_binary_from_tokens t with
  | .ok ws => ws
  | _ => []

/-- Little-endian bytes of a whole record stream. -/
def stream_bytes (ts : List FileTokens) : List Nat :=
  ts.flatMap (fun t => words_to_bytes (enc_words t))

/-- Every record of the stream encodes without failing. -/
def encodes_ok (ts : List FileTokens) : Bool :=
  ts.all (fun t => match get_binary_from_tokens t with
    | .ok _ => true
    | _ => false)

/-- No instruction record in the stream. -/
def instr_free (ts : List FileTokens) : Bool :=
  ts.all (fun t => !is_instr t)

/-- All instruction records precede all data records — the stream-order
invariant of the tokenizer (`process_file_into_tokens` never returns to
code mode once a data record is produced). -/
def code_first : List FileTokens → Bool
  | [] => true
  | .DataTokens _ :: rest => instr_free rest
  | _ :: rest => code_first rest

lemma encodes_ok_cons {t : FileTokens} {ts : List FileTokens}
    (h : encodes_ok (t :: ts) = true) :
    (∃ ws, get_binary_from_tokens t = .ok ws) ∧ encodes_ok ts = true := by
  simp only [encodes_ok, List.all_cons, Bool.and_eq_true] at h
  refine ⟨?_, h.2⟩
  rcases hg : get_binary_from_tokens t with ws | m | _
  · exact ⟨ws, rfl⟩
  · rw [hg] at h; simp at h
  · rw [hg] at h; simp at h

lemma encodes_ok_filter {p : FileTokens → Bool} {ts : List FileTokens}
    (h : encodes_ok ts = true) : encodes_ok (ts.filter p) = true := by
  simp only [encodes_ok, List.all_eq_true] at h ⊢
  intro t ht
  exact h t (List.mem_of_mem_filter ht)

lemma instr_free_filter_instr {ts : List FileTokens}
    (h : instr_free ts = true) : ts.filter is_instr = [] := by
  induction ts with
  | nil => rfl
  | cons t ts ih =>
    simp only [instr_free, List.all_cons, Bool.and_eq_true] at h
    have h1 : is_instr t = false := by simpa using h.1
    simp [List.filter_cons, h1, ih (by simp [instr_free, h.2])]

/-- After the first data record (`section_mode = 'd'`), the loop appends
exactly the remaining data words (text records are postponed at the end of
the `text_instrs` accumulator). -/
lemma generate_binary_loop_data_phase (ts : List FileTokens) :
    ∀ txt out, instr_free ts = true → encodes_ok ts = true →
    generate_binary_loop ts 'd' txt out =
      some (out ++ stream_bytes (ts.filter is_data), txt ++ ts.filter is_text) := by
  induction ts with
  | nil => intro txt out _ _; simp [generate_binary_loop, stream_bytes]
  | cons t ts ih =>
    intro txt out hif hok
    obtain ⟨⟨ws, hws⟩, hok'⟩ := encodes_ok_cons hok
    simp only [instr_free, List.all_cons, Bool.and_eq_true] at hif
    have hif' : instr_free ts = true := by simp [instr_free, hif.2]
    cases t with
    | InstrTokens it => simp [is_instr] at hif
    | DataTokens dt =>
      simp only [generate_binary_loop, hws]
      rw [if_neg (by decide), if_neg (by decide), ih _ _ hif' hok']
      simp only [List.filter_cons, is_data, is_text, if_pos, if_neg]
      have hbytes : ws = dt.bytes := by
        simpa [get_binary_from_tokens] using hws.symm
      simp [stream_bytes, enc_words, hws, hbytes, List.append_assoc]
    | TextTokens tt =>
      simp only [generate_binary_loop]
      rw [ih _ _ hif' hok']
      simp [List.filter_cons, is_data, is_text, List.append_assoc]

/-- In code mode (`section_mode = 'c'`) on a stream whose instructions all
precede its data records, the loop writes the instruction words, then —
exactly when a data record exists — the `data:\0` marker and all data
words. -/
lemma generate_binary_loop_code_phase (ts : List FileTokens) :
    ∀ txt out, code_first ts = true → encodes_ok ts = true →
    generate_binary_loop ts 'c' txt out =
      some (out ++ stream_bytes (ts.filter is_instr) ++
              (if (ts.filter is_data).isEmpty then []
               else data_marker ++ stream_bytes (ts.filter is_data)),
            txt ++ ts.filter is_text) := by
  induction ts with
  | nil => intro txt out _ _; simp [generate_binary_loop, stream_bytes]
  | cons t ts ih =>
    intro txt out hcf hok
    obtain ⟨⟨ws, hws⟩, hok'⟩ := encodes_ok_cons hok
    cases t with
    | InstrTokens it =>
      have hcf' : code_first ts = true := by simpa [code_first] using hcf
      simp only [generate_binary_loop, hws]
      rw [ih _ _ hcf' hok']
      simp [List.filter_cons, is_instr, is_data, is_text,
        stream_bytes, enc_words, hws, List.append_assoc]
    | TextTokens tt =>
      have hcf' : code_first ts = true := by simpa [code_first] using hcf
      simp only [generate_binary_loop]
      rw [ih _ _ hcf' hok']
      simp [List.filter_cons, is_instr, is_data, is_text, List.append_assoc]
    | DataTokens dt =>
      have hif : instr_free ts = true := by simpa [code_first] using hcf
      simp only [generate_binary_loop, hws, if_true]
      rw [generate_binary_loop_data_phase ts _ _ hif hok']
      have hbytes : ws = dt.bytes := by
        simpa [get_binary_from_tokens] using hws.symm
      simp [List.filter_cons, is_instr, is_data, is_text,
        instr_free_filter_instr hif, stream_bytes, enc_words, hws, hbytes,
        List.append_assoc]

lemma write_text_instrs_spec (ts : List FileTokens) :
    ∀ out, encodes_ok ts = true →
    write_text_instrs ts out = some (out ++ stream_bytes ts) := by
  induction ts with
  | nil => intro out _; simp [write_text_instrs, stream_bytes]
  | cons t ts ih =>
    intro out hok
    obtain ⟨⟨ws, hws⟩, hok'⟩ := encodes_ok_cons hok
    simp only [write_text_instrs, hws]
    rw [ih _ hok']
    simp [stream_bytes, enc_words, hws, List.append_assoc]

/-- C7: on a record stream in which every instruction record precedes every
data record (the invariant of the tokenizer's section modes) and every
record encodes successfully, `generate_binary` writes all instruction words
in source order first; then, exactly when at least one data record exists,
the marker bytes `data:\0` followed by all data words in source order;
then, exactly when at least one text record exists, the marker bytes
`text:\0` followed by all text words in source order (text always last) —
and every 16-bit word is written as two bytes, low byte first
(`word_to_bytes`). -/
theorem c7_generate_binary_layout (ts : List FileTokens)
    (hcf : code_first ts = true) (hok : encodes_ok ts = true) :
    generate_binary ts =
      some (stream_bytes (ts.filter is_instr) ++
            (if (ts.filter is_data).isEmpty then []
             else data_marker ++ stream_bytes (ts.filter is_data)) ++
            (if (ts.filter is_text).isEmpty then []
             else text_marker ++ stream_bytes (ts.filter is_text))) := by
  unfold generate_binary
  rw [generate_binary_loop_code_phase ts [] [] hcf hok]
  simp only [List.nil_append]
  by_cases htext : (ts.filter is_text).isEmpty
  · rw [if_pos htext, if_pos htext]
    simp
  · rw [if_neg htext, if_neg htext,
      write_text_instrs_spec _ _ (encodes_ok_filter hok)]
    simp [List.append_assoc]

/-- Witness for C7 at a concrete three-record stream
(`NOP`; `.int 42` labelled `d1`; a one-word text record). -/
theorem c7_generate_binary_layout_witness :
    generate_binary
      [.InstrTokens ⟨none, "NOP", none, none, none, none, none⟩,
       .DataTokens ⟨some "d1", "int", [42]⟩,
       .TextTokens ⟨none, [72]⟩] =
      some [0, 0, 100, 97, 116, 97, 58, 0, 42, 0, 116, 101, 120, 116, 58, 0, 72, 0] := by
  rw [c7_generate_binary_layout _ (by decide) (by decide)]
  decide

/-! ### Validation (`src/validation.rs`)

Validators return `Except VErr _`: `VErr.err` models the returned
`AsmValidationError`, `VErr.panicked` an index/`unwrap` panic.  Rust byte
indices coincide with character indices on the ASCII inputs the claims
use; `is_numeric`/`is_alphanumeric` are modelled by their ASCII cores. -/

inductive VErr where
  | err (msg : String)
  | panicked
deriving Repr, DecidableEq

/-- `Except.isOk` as a plain boolean. -/
def isOkE {ε α : Type} : Except ε α → Bool
  | .ok _ => true
  | .error _ => false

/-! Character-list implementations of the string operations the Rust code
uses (`starts_with`, `ends_with`, slicing, `trim`, `split`, `find`).
Rust's byte indices coincide with character indices on ASCII input. -/

/-- Rust `str::starts_with`. -/
def strStartsWith (s p : String) : Bool := p.data.isPrefixOf s.data

/-- Rust `str::ends_with`. -/
def strEndsWith (s p : String) : Bool := p.data.isSuffixOf s.data

/-- Rust slicing `s[n..]` (ASCII: byte index = char index). -/
def strDrop (s : String) (n : Nat) : String := ⟨s.data.drop n⟩

/-- Rust slicing `s[..n]`. -/
def strTake (s : String) (n : Nat) : String := ⟨s.data.take n⟩

/-- Rust `str::trim`. -/
def strTrim (s : String) : String :=
  ⟨(((s.data.dropWhile Char.isWhitespace).reverse.dropWhile Char.isWhitespace).reverse)⟩

/-- Splitting a character list at every occurrence of `c` (Rust
`str::split` with a one-character pattern, which yields empty pieces for
adjacent separators and one piece for the empty string). -/
def splitCharsOn (c : Char) : List Char → List Char → List String
  | [], acc => [⟨acc.reverse⟩]
  | x :: xs, acc =>
    if x = c then (⟨acc.reverse⟩ : String) :: splitCharsOn c xs []
    else splitCharsOn c xs (x :: acc)

/-- Rust `str::split` with a one-character separator. -/
def strSplitOn (s : String) (c : Char) : List String := splitCharsOn c s.data []

/-- Rust `str::find` with a one-character pattern: index of the first
occurrence. -/
def strFindChar (s : String) (c : Char) : Option Nat :=
  s.data.findIdx? (· = c)

/-- Rust `str::find` with a string pattern: index of the first occurrence
of the substring. -/
def strFindSub (s needle : String) : Option Nat :=
  (List.range (s.data.length + 1)).find? (fun i => needle.data.isPrefixOf (s.data.drop i))

example : strSplitOn "a  b" ' ' = ["a", "", "b"] := by decide
example : strSplitOn "" ' ' = [""] := by decide
example : strTrim "  x " = "x" := by decide
example : strFindSub "my: ADD x" "ADD" = some 4 := by decide
example : strFindChar "ab;c" ';' = some 2 := by decide

/-- The value of one digit character, as in Rust `char::to_digit`
(`0`-`9`, then letters). -/
def digit_val (c : Char) : Option Nat :=
  if '0' ≤ c ∧ c ≤ '9' then some (c.toNat - '0'.toNat)
  else if 'a' ≤ c ∧ c ≤ 'z' then some (c.toNat - 'a'.toNat + 10)
  else if 'A' ≤ c ∧ c ≤ 'Z' then some (c.toNat - 'A'.toNat + 10)
  else none

/-- Accumulates the digits of a numeral; `none` on a character that is not
a digit of the radix. -/
def parse_digits_go (radix : Nat) (acc : Nat) : List Char → Option Nat
  | [] => some acc
  | c :: cs =>
    match digit_val c with
    | some d => if d < radix then parse_digits_go radix (acc * radix + d) cs else none
    | none => none

/-- Rust `i64::from_str_radix` (and `str::parse::<i64>` for radix 10):
an optional sign, then one or more digits of the radix; errors on an empty
digit string, a bad digit, or `i64` overflow. -/
def from_str_radix (radix : Nat) (s : String) : Option Int :=
  let signDigits : Bool × List Char :=
    match s.data with
    | '-' :: cs => (true, cs)
    | '+' :: cs => (false, cs)
    | cs => (false, cs)
  match signDigits.2 with
  | [] => none
  | ds =>
    match parse_digits_go radix 0 ds with
    | none => none
    | some n =>
      let v : Int := if signDigits.1 then -(n : Int) else (n : Int)
      if v < -(2 ^ 63) ∨ v > 2 ^ 63 - 1 then none else some v

example : from_str_radix 10 "-100" = some (-100) := by decide
example : from_str_radix 16 "1A" = some 26 := by decide
example : from_str_radix 2 "0101" = some 5 := by decide
example : from_str_radix 10 "" = none := by decide
example : from_str_radix 10 "1q" = none := by decide
example : from_str_radix 10 "+5" = some 5 := by decide

/-- `validate_int_immediate` from `src/validation.rs` (lines 379-428):
parses the payload by prefix (`0b` binary, `0x` hexadecimal, else decimal)
and range-checks it.  `bits` is `Nat` (the Rust `i16` is non-negative at
every call site); `2_i64.pow(bits)` is exact arithmetic here, hence the
`bits ≤ 62` hypothesis on the theorem below. -/
def validate_int_immediate (operand : String) (bits : Nat) (signed : Bool) :
    Except VErr Int :=
  let parsed : Option Int × Bool :=
    if strStartsWith operand "0b" then (from_str_radix 2 (strDrop operand 2), false)
    else if strStartsWith operand "0x" then (from_str_radix 16 (strDrop operand 2), false)
    else (from_str_radix 10 operand, true)
  match parsed with
  | (none, _) => .error (.err ("Could not parse immediate " ++ operand))
  | (some immediate, decimal) =>
    let max_immediate : Int :=
      if signed && decimal then 2 ^ bits / 2 - 1 else 2 ^ bits - 1
    let min_immediate : Int :=
      if signed && decimal then -(2 ^ bits / 2) else 0
    if immediate < 0 ∧ (signed && decimal) = false then
      .error (.err ("Unsigned immediate operand " ++ operand ++ " cannot be negative"))
    else if immediate > max_immediate ∨ (immediate < min_immediate ∧ signed = true) then
      .error (.err ("Immediate " ++ operand ++ " cannot fit into the given bits"))
    else .ok immediate

example : validate_int_immediate "-100" 16 true = .ok (-100) := rfl
example : isOkE (validate_int_immediate "-100" 16 false) = false := by decide
example : isOkE (validate_int_immediate "32768" 16 true) = false := by decide
example : validate_int_immediate "0xFFFF" 16 true = .ok 65535 := rfl
example : isOkE (validate_int_immediate "-5" 4 false) = false := by decide
example : validate_int_immediate "0b1101" 4 false = .ok 13 := rfl

/-- C8: `validate_int_immediate(payload, b, signed)` accepts a payload if
and only if it is a decimal numeral in `[-2^(b-1), 2^(b-1)-1]` when
`signed` (a negative decimal is rejected when unsigned), a decimal in
`[0, 2^b - 1]` when unsigned, or a `0x`/`0b` numeral in `[0, 2^b - 1]`
regardless of the `signed` flag; every other payload yields an
`AsmValidationError`.  `bits ≤ 62` keeps the model's exact `2^bits`
arithmetic within the Rust `2_i64.pow(bits)`. -/
theorem c8_validate_int_immediate_iff (s : String) (bits : Nat) (signed : Bool)
    (h1 : 1 ≤ bits) (h62 : bits ≤ 62) :
    isOkE (validate_int_immediate s bits signed) = true ↔
      (if strStartsWith s "0b" then
        ∃ n, from_str_radix 2 (strDrop s 2) = some n ∧ 0 ≤ n ∧ n ≤ 2 ^ bits - 1
      else if strStartsWith s "0x" then
        ∃ n, from_str_radix 16 (strDrop s 2) = some n ∧ 0 ≤ n ∧ n ≤ 2 ^ bits - 1
      else if signed then
        ∃ n, from_str_radix 10 s = some n ∧
          -(2 ^ (bits - 1)) ≤ n ∧ n ≤ 2 ^ (bits - 1) - 1
      else
        ∃ n, from_str_radix 10 s = some n ∧ 0 ≤ n ∧ n ≤ 2 ^ bits - 1) := by
  have hpow2 : (2 : Int) ^ bits = 2 ^ (bits - 1) * 2 := by
    obtain ⟨k, rfl⟩ : ∃ k, bits = k + 1 := ⟨bits - 1, (Nat.succ_pred_eq_of_pos h1).symm⟩
    rw [pow_succ, Nat.add_sub_cancel]
  have hpow : (2 : Int) ^ bits / 2 = 2 ^ (bits - 1) := by
    rw [hpow2, Int.mul_ediv_cancel _ (by norm_num)]
  unfold validate_int_immediate
  by_cases h0b : strStartsWith s "0b"
  · simp only [h0b, if_true]
    cases hp : from_str_radix 2 (strDrop s 2) with
    | none => simp [isOkE]
    | some n =>
      cases signed <;>
        simp only [isOkE, Bool.and_false, Option.some.injEq, exists_eq_left'] <;>
        split_ifs <;> simp_all <;> omega
  · by_cases h0x : strStartsWith s "0x"
    · simp only [h0b, h0x, if_true, Bool.false_eq_true, if_false]
      cases hp : from_str_radix 16 (strDrop s 2) with
      | none => simp [isOkE]
      | some n =>
        cases signed <;>
          simp only [isOkE, Bool.and_false, Option.some.injEq, exists_eq_left'] <;>
          split_ifs <;> simp_all <;> omega
    · simp only [h0b, h0x, Bool.false_eq_true, if_false]
      cases hp : from_str_radix 10 s with
      | none => cases signed <;> simp [isOkE]
      | some n =>
        cases signed <;>
          simp only [isOkE, Bool.and_true, Option.some.injEq, exists_eq_left', hpow] <;>
          split_ifs <;> simp_all <;> omega

/-- Witness for C8: the signed 16-bit decimal `-100` is accepted. -/
theorem c8_validate_int_immediate_iff_witness :
    isOkE (validate_int_immediate "-100" 16 true) = true :=
  (c8_validate_int_immediate_iff "-100" 16 true (by decide) (by decide)).mpr
    (by refine if_neg ?_ ▸ ?_ <;> decide)

/-- `remove_label` from `src/validation.rs`: everything after the first
`:` (trimmed), or the line unchanged. -/
def remove_label (line : String) : String :=
  match line.data.dropWhile (· ≠ ':') with
  | [] => line
  | _ :: rest => strTrim ⟨rest⟩

example : remove_label "my_data: .int -100" = ".int -100" := by decide
example : remove_label "NOP" = "NOP" := by decide

/-- `validate_data_type` from `src/validation.rs` (lines 67-81). -/
def validate_data_type (line : String) (mode : Char) : Except VErr String :=
  let valid_data_types : List String :=
    [".int", ".long", ".half", ".float", ".section", ".char", ".text"]
  match strSplitOn (remove_label line) ' ' with
  | [] => .error .panicked
  | data_type :: _ =>
    if !valid_data_types.contains data_type then
      .error (.err (data_type ++ " is not a valid data type"))
    else if mode = 't' ∧ data_type ≠ ".text" then
      .error (.err (line ++ " is not text, yet is in the text section"))
    else if mode ≠ 't' ∧ data_type = ".text" then
      .error (.err (line ++ " is text, yet is not in the text section"))
    else .ok data_type

/-- `validate_token_vec` from `src/validation.rs`. -/
def validate_token_vec (line : String) (vec : List String) (req_len : Nat) :
    Except VErr Unit :=
  if vec.length ≠ req_len then
    .error (.err ("Incorrect format for tokenisation on line " ++ line))
  else .ok ()

/-- `validate_label` from `src/validation.rs` (lines 565-579): no leading
digit, only alphanumerics and `_` (`chars().collect()[0]` panics on an
empty label). -/
def validate_label (line label : String) : Except VErr Unit :=
  match label.data with
  | [] => .error .panicked
  | c :: _ =>
    if c.isDigit then
      .error (.err ("The label " ++ label ++ " on the line " ++ line ++ " is not valid"))
    else if !label.data.all (fun ch => ch.isAlphanum || ch = '_') then
      .error (.err ("The label " ++ label ++ " on the line " ++ line ++ " is not valid"))
    else .ok ()

/-- `validate_line_label` from `src/validation.rs`. -/
def validate_line_label (line : String) : Except VErr Unit :=
  match strFindChar line ':' with
  | some index => validate_label line (strTake line index)
  | none => .ok ()

/-- `validate_operand_label` from `src/validation.rs`. -/
def validate_operand_label (line label : String) : Except VErr Unit :=
  if !strStartsWith label "@" then
    .error (.err ("Label operand " ++ label ++ " must start with an @ symbol"))
  else validate_label line (strDrop label 1)

/-- `validate_label_operand` from `src/validation.rs`. -/
def validate_label_operand (line operand : String) : Except VErr Unit :=
  if !strStartsWith operand "@" then
    .error (.err (operand ++ " is not a valid operand"))
  else validate_operand_label line operand

/-- The 28 mnemonics of `validate_opcode` (`src/validation.rs` lines
328-332); note `ATOM` is present here but absent from
`OPCODE_BINARIES`. -/
def valid_opcodes : List String :=
  ["ADD", "SUB", "ADDI", "SUBI", "SLL", "SRL", "SRA", "NAND", "OR", "ADDC", "SUBC",
   "LOAD", "STORE", "JUMP", "JAL", "CMP", "BEQ", "BNE", "BLT", "BGT", "NOP", "MOVUI",
   "IN", "OUT", "syscall", "HALT", "MOVLI", "ATOM"]

/-- `validate_opcode` from `src/validation.rs` (lines 327-341). -/
def validate_opcode (line : String) : Except VErr String :=
  match (strSplitOn (remove_label line) ' ').filter (fun s => s ≠ "") with
  | [] => .error .panicked
  | opcode :: _ =>
    if !valid_opcodes.contains opcode then
      .error (.err (opcode ++ " is not a valid opcode on line " ++ line))
    else .ok opcode

/-- `get_operands_from_line` from `src/validation.rs` (lines 346-358):
the comma-separated, trimmed, non-empty operand strings between the opcode
and any `;` comment (`none` models the `.expect` panic when the opcode is
not found in the line). -/
def get_operands_from_line (line opcode : String) : Option (List String) :=
  match strFindSub line opcode with
  | none => none
  | some opcode_start_index =>
    let opcode_end_index := opcode_start_index + opcode.data.length
    let comment_start_index := (strFindChar line ';').getD line.data.length
    let operands_section : String := ⟨(line.data.take comment_start_index).drop opcode_end_index⟩
    some (((strSplitOn operands_section ',').map strTrim).filter (fun s => s ≠ ""))

example : get_operands_from_line "IN $g0, $g1" "IN" = some ["$g0", "$g1"] := by decide
example : get_operands_from_line "ATOM" "ATOM" = some [] := by decide

/-- The 16 register names of `validate_register`
(`src/validation.rs` lines 363-366). -/
def valid_registers : List String :=
  ["$zero", "$g0", "$g1", "$g2", "$g3", "$g4", "$g5", "$g6", "$g7", "$g8", "$g9",
   "$ua", "$sp", "$ra", "$fp", "$pc"]

/-- `validate_register` from `src/validation.rs`. -/
def validate_register (register : String) : Except VErr Unit :=
  if !valid_registers.contains register then
    .error (.err (register ++ " is not a valid register"))
  else .ok ()

/-- `validate_operands` from `src/validation.rs` (lines 451-558): enforces
the per-opcode operand schema (in particular `IN`/`OUT` require exactly
two registers, and `NOP`/`ATOM`/`HALT` take no operands). -/
def validate_operands (line opcode : String) : Except VErr Unit :=
  match get_operands_from_line line opcode with
  | none => .error .panicked
  | some operands =>
    if opcode = "ADD" ∨ opcode = "SUB" ∨ opcode = "NAND" ∨ opcode = "OR" then
      if operands.length ≠ 3 then
        .error (.err ("Incorrect number of operands on line " ++ line))
      else do
        validate_register (operands.getD 0 "")
        validate_register (operands.getD 1 "")
        validate_register (operands.getD 2 "")
    else if opcode = "LOAD" ∨ opcode = "STORE" then
      if operands.length ≠ 3 ∧ operands.length ≠ 4 then
        .error (.err ("Incorrect number of operands on line " ++ line))
      else do
        validate_register (operands.getD 0 "")
        validate_register (operands.getD 1 "")
        validate_register (operands.getD 2 "")
        if operands.length = 4 then validate_label_operand line (operands.getD 3 "")
        else pure ()
    else if opcode = "ADDI" ∨ opcode = "SUBI" ∨ opcode = "SLL" ∨ opcode = "SRL" ∨
            opcode = "SRA" then
      if operands.length ≠ 3 then
        .error (.err ("Incorrect number of operands on line " ++ line))
      else do
        validate_register (operands.getD 0 "")
        validate_register (operands.getD 1 "")
        let _ ← validate_int_immediate (operands.getD 2 "") 4 false
        pure ()
    else if opcode = "ADDC" ∨ opcode = "SUBC" ∨ opcode = "CMP" ∨ opcode = "IN" ∨
            opcode = "OUT" then
      if operands.length ≠ 2 then
        .error (.err ("Incorrect number of operands on line " ++ line))
      else do
        validate_register (operands.getD 0 "")
        validate_register (operands.getD 1 "")
    else if opcode = "JUMP" ∨ opcode = "JAL" ∨ opcode = "BEQ" ∨ opcode = "BNE" ∨
            opcode = "BLT" ∨ opcode = "BGT" then
      match operands with
      | [r0] => do
        validate_register r0
        if r0 ≠ "$sp" ∧ r0 ≠ "$fp" ∧ r0 ≠ "$ra" ∧ r0 ≠ "$pc" then
          .error (.err ("Incorrect number of operands on line " ++ line))
        else pure ()
      | [r0, r1] => do
        validate_register r0
        validate_register r1
      | [r0, r1, l2] => do
        validate_register r0
        validate_register r1
        validate_label_operand line l2
      | _ => .error (.err ("Incorrect number of operands on line " ++ line))
    else if opcode = "MOVUI" ∨ opcode = "MOVLI" then
      if operands.length ≠ 2 then
        .error (.err ("Incorrect number of operands on line " ++ line))
      else do
        validate_register (operands.getD 0 "")
        if strStartsWith (operands.getD 1 "") "@" then
          validate_label_operand line (operands.getD 1 "")
        else do
          let _ ← validate_int_immediate (operands.getD 1 "") 8 false
          pure ()
    else if opcode = "syscall" then
      if operands.length ≠ 1 then
        .error (.err ("Incorrect number of operands on line " ++ line))
      else do
        let _ ← validate_int_immediate (operands.getD 0 "") 8 false
        pure ()
    else if opcode = "NOP" ∨ opcode = "ATOM" ∨ opcode = "HALT" then
      if operands.isEmpty then .ok ()
      else .error (.err ("Instruction " ++ line ++ " takes no arguments"))
    else .error (.err ("Invalid opcode: " ++ opcode ++ " on line " ++ line))

/-- `get_valid_array_size` from `src/validation.rs` (assumes the label has
been removed; `tokens[1]` panics when absent, `try_into` of the size
happens at the callers). -/
def get_valid_array_size (line : String) : Except VErr Int :=
  match (strSplitOn line ' ').get? 1 with
  | none => .error .panicked
  | some tok =>
    match from_str_radix 10 (strTrim tok) with
    | some val => .ok val
    | none => .error (.err (strTrim tok ++ " is not a valid size for the array on line " ++ line))

/-- `validate_text_instr` from `src/validation.rs` (lines 197-236); the
`str::from_utf8` re-check of a `&str` always succeeds and is omitted.  A
negative size panics in `array_size.try_into().unwrap()`. -/
def validate_text_instr (line : String) : Except VErr Unit := do
  let instr := remove_label line
  let array_size ← get_valid_array_size instr
  match strFindSub instr "\"" with
  | none => .error (.err (line ++ " is not a correctly formatted .text data instruction"))
  | some text_start_index =>
    if !strEndsWith instr "\"" then
      .error (.err (line ++ " is not a correctly formatted .text data instruction"))
    else
      let text : String := strDrop instr text_start_index
      let str_len : Nat := text.data.length - 1
      if array_size < 0 then .error .panicked
      else if (str_len : Int) > array_size then
        .error (.err ("Text is too long on line " ++ line))
      else .ok ()

/-- `validate_bytes_section_instr` from `src/validation.rs`
(lines 241-276). -/
def validate_bytes_section_instr (line : String) : Except VErr Unit := do
  let instr := remove_label line
  let array_size ← get_valid_array_size instr
  match strFindChar instr '[' with
  | none => .error (.err (instr ++ " is not a properly formatted array"))
  | some array_start_index =>
    if !strEndsWith instr "]" then
      .error (.err (instr ++ " is not a properly formatted array"))
    else
      let array_contents_str : String :=
        ⟨(instr.data.take (instr.data.length - 1)).drop (array_start_index + 1)⟩
      let array_contents :=
        ((strSplitOn array_contents_str ',').map strTrim).filter (fun s => s ≠ "")
      match array_contents.findSome?
          (fun item => match validate_int_immediate item 16 true with
            | .error e => some e
            | .ok _ => none) with
      | some e => .error e
      | none =>
        if array_size < 0 then .error .panicked
        else if (array_contents.length : Int) > array_size then
          .error (.err ("Bytes array is too long on line " ++ line))
        else .ok ()

/-- `validate_char_immediate` from `src/validation.rs` (lines 129-146). -/
def validate_char_immediate (line immediate : String) : Except VErr Unit :=
  if ¬strStartsWith immediate "'" ∨ ¬strEndsWith immediate "'" then
    .error (.err ("Immediate " ++ immediate ++ " on line " ++ line ++ " is not in a valid format"))
  else
    let imm_char : List Char := (immediate.data.take (immediate.data.length - 1)).drop 1
    if imm_char.length ≠ 1 then
      .error (.err ("Immediate " ++ immediate ++ " on line " ++ line ++ " is not in a valid format"))
    else .ok ()

/-- `validate_char_instr` from `src/validation.rs` (lines 151-174). -/
def validate_char_instr (line : String) : Except VErr Unit :=
  let instr0 := strTrim (remove_label line)
  if ¬strStartsWith instr0 ".char" then
    .error (.err (line ++ " is not a valid character data instruction"))
  else
    let instr := strTrim (strDrop instr0 5)
    if ¬(strStartsWith instr "'" ∧ strEndsWith instr "'") then
      .error (.err (line ++ " is not a valid character data instruction"))
    else
      match validate_char_immediate line instr with
      | .ok _ => .ok ()
      | .error e =>
        let character : String := ⟨(instr.data.take (instr.data.length - 1)).drop 1⟩
        if character = "\t" ∨ character = "\n" ∨ character = "\x00" ∨ character = "\r" then
          .ok ()
        else .error e

/-- `validate_data_format` from `src/validation.rs` (lines 281-322).  The
`.half`/`.float` arms call IEEE-754 float validation, which is outside
this embedding (no claim depends on them); all other arms are
translated in full. -/
def validate_data_format (line data_type : String) : Except VErr Unit :=
  let tokens := strSplitOn (remove_label line) ' '
  if data_type = ".int" then do
    validate_token_vec line tokens 2
    let _ ← validate_int_immediate (tokens.getD 1 "") 16 true
    pure ()
  else if data_type = ".long" then do
    validate_token_vec line tokens 2
    let _ ← validate_int_immediate (tokens.getD 1 "") 32 true
    pure ()
  else if data_type = ".half" ∨ data_type = ".float" then
    .error (.err "float validation not modelled")
  else if data_type = ".section" then validate_bytes_section_instr line
  else if data_type = ".char" then validate_char_instr line
  else if data_type = ".text" then validate_text_instr line
  else .error (.err (data_type ++ " is not a valid data type on line " ++ line))

/-- `validate_asm_line` from `src/validation.rs` (lines 7-51). -/
def validate_asm_line (line : String) (mode : Char) : Except VErr Unit := do
  validate_line_label line
  if strEndsWith line ":" then return ()
  if mode = 'c' then
    match validate_opcode line with
    | .ok opcode => validate_operands line opcode
    | .error e =>
      match validate_data_type line mode with
      | .ok _ => .error (.err (line ++ " is for data, but is in the instructions section"))
      | .error _ => .error e
  else
    match validate_data_type line mode with
    | .ok data_type => validate_data_format line data_type
    | .error e =>
      match validate_opcode line with
      | .ok _ => .error (.err (line ++ " is an instruction, but is in the data section"))
      | .error _ => .error e

example : validate_asm_line "my_label: ADD $g0, $zero, $g1" 'c' = .ok () := rfl
example : validate_asm_line "IN $g0, $g1" 'c' = .ok () := rfl
example : validate_asm_line "my_label: ATOM" 'c' = .ok () := rfl
example : validate_asm_line "my_label: .int -100" 'd' = .ok () := rfl
example : isOkE (validate_asm_line "ADDI $g0, $g1, -5" 'c') = false := by decide
example : isOkE (validate_asm_line "my_label: .int 32768" 'd') = false := by decide
example : validate_asm_line "my_label: .section 4 [0x0100, 0b0011, 10, 0x00A4]" 'd' = .ok () := rfl
example : validate_asm_line "my_label: .char 'a'" 'd' = .ok () := rfl
example : validate_asm_line "my_text: .text 13 \"Hello world!\"" 't' = .ok () := rfl

/-! ### Token generation (`src/token_generator.rs`) -/

/-- `get_int_immediate_from_string` from `src/token_generator.rs` (lines
130-141); note it checks the `0x` prefix before `0b`, unlike the
validator.  `none` models the parse `.unwrap()` panic. -/
def get_int_immediate_from_string (immediate : String) : Option Int :=
  if strStartsWith immediate "0x" then from_str_radix 16 (strDrop immediate 2)
  else if strStartsWith immediate "0b" then from_str_radix 2 (strDrop immediate 2)
  else from_str_radix 10 immediate

/-- The `"int"` and `"long"` arms of `get_bytes_array_from_line` from
`src/token_generator.rs` (lines 27-97).  The remaining arms
(`half`/`float`/`char`/`text`/`section`) need IEEE-754 or UTF-16
lowering and are not needed by any claim; they are left out (`none`).
The `"int"` arm is `get_int_immediate_from_string(integer).try_into()
.unwrap()` into `u16`: any value outside `[0, 65535]` — in particular any
negative decimal — panics (`none`). -/
def get_bytes_array_from_line (category data : String) : Option (List Nat) :=
  let data := remove_label data
  if category = "int" then
    match ((strSplitOn data ' ').filter (fun s => s ≠ "")).get? 1 with
    | none => none
    | some integer =>
      match get_int_immediate_from_string integer with
      | none => none
      | some v => if 0 ≤ v ∧ v ≤ 65535 then some [v.toNat] else none
  else if category = "long" then
    match ((strSplitOn data ' ').filter (fun s => s ≠ "")).get? 1 with
    | none => none
    | some long_str =>
      match get_int_immediate_from_string long_str with
      | none => none
      | some v =>
        if 0 ≤ v ∧ v ≤ 4294967295 then
          some [(v.toNat >>> 16) &&& 0xFFFF, v.toNat &&& 0xFFFF]
        else none
  else none

/-- `generate_data_tokens` from `src/token_generator.rs` (lines 103-111):
same-line label (before the first `:`) wins over the pending label; the
category is the validated directive without its leading dot.  `none`
models a panic of the two `.unwrap()`s inside. -/
def generate_data_tokens (line : String) (prev_label : Option String) (mode : Char) :
    Option DataTokens :=
  let label : Option String :=
    match strFindChar line ':' with
    | some index => some (strTake line index)
    | none => prev_label
  match validate_data_type line mode with
  | .error _ => none
  | .ok dt =>
    let category := strDrop dt 1
    match get_bytes_array_from_line category line with
    | none => none
    | some bytes => some ⟨label, category, bytes⟩

/-- `generate_instr_tokens` from `src/token_generator.rs` (lines 147-216):
dispatch on the operand count; for two/three operands the last operand is
a register (`$`), an operand label (`@`) or an immediate.  `none` models
the panics (`unwrap` of the opcode validation, of integer parses, of the
`i64 → u64` conversion of a negative immediate, or the explicit panic on
an impossible operand count). -/
def generate_instr_tokens (line : String) (prev_label : Option String) :
    Option InstrTokens :=
  let label : Option String :=
    match strFindChar line ':' with
    | some index => some (strTake line index)
    | none => prev_label
  match validate_opcode line with
  | .error _ => none
  | .ok opcode =>
    match get_operands_from_line line opcode with
    | none => none
    | some operands =>
      match operands with
      | [] => some ⟨label, opcode, none, none, none, none, none⟩
      | [op0] =>
        if opcode = "syscall" then
          match get_int_immediate_from_string op0 with
          | none => none
          | some v =>
            if 0 ≤ v then some ⟨label, opcode, none, none, none, some v.toNat, none⟩
            else none
        else some ⟨label, opcode, some op0, none, none, none, none⟩
      | [op0, op1] =>
        if strStartsWith op1 "$" then
          some ⟨label, opcode, some op0, some op1, none, none, none⟩
        else if strStartsWith op1 "@" then
          some ⟨label, opcode, some op0, none, none, none, some op1⟩
        else
          match get_int_immediate_from_string op1 with
          | none => none
          | some v =>
            if 0 ≤ v then some ⟨label, opcode, some op0, none, none, some v.toNat, none⟩
            else none
      | [op0, op1, op2] =>
        if strStartsWith op2 "@" then
          some ⟨label, opcode, some op0, some op1, none, none, some op2⟩
        else if ¬strStartsWith op2 "$" then
          match get_int_immediate_from_string op2 with
          | none => none
          | some v =>
            if 0 ≤ v then some ⟨label, opcode, some op0, some op1, none, some v.toNat, none⟩
            else none
        else some ⟨label, opcode, some op0, some op1, some op2, none, none⟩
      | [op0, op1, op2, op3] =>
        some ⟨label, opcode, some op0, some op1, some op2, none, some op3⟩
      | _ => none

example : generate_instr_tokens "init: ADDI $g0, $zero, 1" none =
    some ⟨some "init", "ADDI", some "$g0", some "$zero", none, some 1, none⟩ := rfl
example : generate_instr_tokens "syscall 0x1F" none =
    some ⟨none, "syscall", none, none, none, some 31, none⟩ := rfl
example : generate_instr_tokens "LOAD $g5, $g8, $g9, @target" none =
    some ⟨none, "LOAD", some "$g5", some "$g8", some "$g9", none, some "@target"⟩ := rfl
example : generate_data_tokens "my_data: .int 50" none 'd' =
    some ⟨some "my_data", "int", [50]⟩ := rfl

/-- C1 (code bug): the encoder fails on records the validator accepts.
`ATOM` is validated (`validate_asm_line "ATOM" 'c'` succeeds) yet
`get_binary_from_tokens` panics on it (no `OPCODE_BINARIES` entry) instead
of encoding it like `NOP`; and a validated `IN`/`OUT` instruction carries
two registers and no immediate, on which the encoder's
`t.immediate.unwrap()` panics instead of returning a word vector. -/
theorem c1_encoder_panics_on_validated_records :
    validate_asm_line "ATOM" 'c' = .ok () ∧
    generate_instr_tokens "ATOM" none =
      some ⟨none, "ATOM", none, none, none, none, none⟩ ∧
    get_binary_from_tokens
      (.InstrTokens ⟨none, "ATOM", none, none, none, none, none⟩) = .panicked ∧
    validate_asm_line "IN $g0, $g1" 'c' = .ok () ∧
    generate_instr_tokens "IN $g0, $g1" none =
      some ⟨none, "IN", some "$g0", some "$g1", none, none, none⟩ ∧
    get_binary_from_tokens
      (.InstrTokens ⟨none, "IN", some "$g0", some "$g1", none, none, none⟩) = .panicked :=
  ⟨rfl, rfl, rfl, rfl, rfl, rfl⟩

/-- C9 (code bug): the validator accepts `my_data: .int -100` in data mode
(signed 16-bit), but the token builder panics on it — the `"int"` arm of
`get_bytes_array_from_line` converts the parsed `-100` to `u16` with
`try_into().unwrap()` — instead of producing the one-word record
`[0xFF9C]`. -/
theorem c9_int_negative_payload_panics :
    validate_asm_line "my_data: .int -100" 'd' = .ok () ∧
    generate_data_tokens "my_data: .int -100" none 'd' = none ∧
    generate_data_tokens "my_data: .int 50" none 'd' = some ⟨some "my_data", "int", [50]⟩ :=
  ⟨rfl, rfl, rfl⟩

/-! ### Pseudo-instruction expansion (`src/pseudo_substitution.rs`)

The two `match token` statements of this Rust file have `InstrTokens` and
`DataTokens` arms only; the `TextTokens` case is modelled as the evident
pass-through, mirroring the `DataTokens` arm. -/

/-- `substitute_pseudo_instrs` from `src/pseudo_substitution.rs` (lines
10-51).  A `LOAD`/`STORE` with an operand label becomes
`MOVLI op_b, l<lbl>` ; `MOVUI op_b, l<lbl>` ; the original (note the first
`MOVLI` is built with label `None` — the record label is dropped).  Any
other opcode except `MOVLI`/`MOVUI` with an operand label becomes the
five-instruction sequence `MOVLI op_a, u<lbl>` ; `MOVUI op_a, u<lbl>` ;
`MOVLI op_b, l<lbl>` ; `MOVUI op_b, l<lbl>` ; the original, with the
record label kept on the first `MOVLI`.  A single-register branch is
canonicalized by moving `op_a` into `op_b`. -/
def substitute_pseudo_instrs : List FileTokens → List FileTokens
  | [] => []
  | token :: rest =>
    (match token with
     | .InstrTokens t =>
       match t.op_label with
       | some operand =>
         if t.opcode = "LOAD" ∨ t.opcode = "STORE" then
           [.InstrTokens ⟨none, "MOVLI", t.operand_b, none, none, none, some ("l" ++ operand)⟩,
            .InstrTokens ⟨none, "MOVUI", t.operand_b, none, none, none, some ("l" ++ operand)⟩,
            .InstrTokens ⟨none, t.opcode, t.operand_a, t.operand_b, t.operand_c, none, none⟩]
         else if t.opcode ≠ "MOVLI" ∧ t.opcode ≠ "MOVUI" then
           [.InstrTokens ⟨t.label, "MOVLI", t.operand_a, none, none, none, some ("u" ++ operand)⟩,
            .InstrTokens ⟨none, "MOVUI", t.operand_a, none, none, none, some ("u" ++ operand)⟩,
            .InstrTokens ⟨none, "MOVLI", t.operand_b, none, none, none, some ("l" ++ operand)⟩,
            .InstrTokens ⟨none, "MOVUI", t.operand_b, none, none, none, some ("l" ++ operand)⟩,
            .InstrTokens ⟨none, t.opcode, t.operand_a, t.operand_b, t.operand_c, none, none⟩]
         else [token]
       | none =>
         if t.opcode = "JUMP" ∨ t.opcode = "BEQ" ∨ t.opcode = "BNE" ∨ t.opcode = "BLT" ∨
            t.opcode = "BGT" ∨ t.opcode = "JAL" then
           match t.operand_b with
           | some _ => [token]
           | none => [.InstrTokens ⟨t.label, t.opcode, none, t.operand_a, none, none, none⟩]
         else [token]
     | .DataTokens _ => [token]
     | .TextTokens _ => [token]) ++ substitute_pseudo_instrs rest

example : substitute_pseudo_instrs
    [.InstrTokens ⟨none, "LOAD", some "$g5", some "$g6", some "$g7", none, some "@test_1"⟩] =
    [.InstrTokens ⟨none, "MOVLI", some "$g6", none, none, none, some "l@test_1"⟩,
     .InstrTokens ⟨none, "MOVUI", some "$g6", none, none, none, some "l@test_1"⟩,
     .InstrTokens ⟨none, "LOAD", some "$g5", some "$g6", some "$g7", none, none⟩] := by decide

example : substitute_pseudo_instrs
    [.InstrTokens ⟨none, "JUMP", some "$ra", none, none, none, none⟩] =
    [.InstrTokens ⟨none, "JUMP", none, some "$ra", none, none, none⟩] := by decide

/-- Errors of `substitute_labels`: the returned `LabelNotFoundError`, or a
panic (indexing `chars().collect()[0]` of an empty operand label). -/
inductive SubstErr where
  | labelNotFound (msg : String)
  | panicked
deriving Repr, DecidableEq

/-- Rust `as u64` on an `i64`: two's-complement reduction. -/
def toU64 (a : Int) : Nat := (a % (2 ^ 64 : Int)).toNat

/-- `substitute_labels` from `src/pseudo_substitution.rs` (lines 56-137):
for each instruction with an operand label, read the one-character prefix
(`u`/`l`, anything else counts as none), strip every `@` (Rust
`label.replace("@", "")`) and the prefix character, look the label up and
store the selected byte of the address in `immediate`, clearing
`op_label`.  `MOVLI` takes bits 7-0 (or 23-16 under the `u` prefix),
`MOVUI` bits 15-8 (or 31-24 under `u`). -/
def substitute_labels (tokens : List FileTokens) (table : List (String × Int)) :
    Except SubstErr (List FileTokens) :=
  match tokens with
  | [] => .ok []
  | token :: rest =>
    match token with
    | .DataTokens t => (substitute_labels rest table).map (fun ns => .DataTokens t :: ns)
    | .TextTokens t => (substitute_labels rest table).map (fun ns => .TextTokens t :: ns)
    | .InstrTokens t =>
      match t.op_label with
      | none => (substitute_labels rest table).map (fun ns => .InstrTokens t :: ns)
      | some label0 =>
        match label0.data with
        | [] => .error .panicked
        | c0 :: _ =>
          let pfx : Char := if c0 = 'u' then 'u' else if c0 = 'l' then 'l' else ' '
          let label1 : List Char := label0.data.filter (fun ch => ch ≠ '@')
          let label : String := ⟨if pfx ≠ ' ' then label1.drop 1 else label1⟩
          let immRes : Except SubstErr Nat :=
            if t.opcode = "MOVLI" then
              match List.lookup label table with
              | some addr =>
                .ok (if pfx = 'u' then (toU64 addr &&& 0x00FF0000) >>> 16
                     else toU64 addr &&& 0x000000FF)
              | none => .error (.labelNotFound ("The label " ++ label ++ " was not found!"))
            else if t.opcode = "MOVUI" then
              match List.lookup label table with
              | some addr =>
                .ok (if pfx = 'u' then (toU64 addr &&& 0xFF000000) >>> 24
                     else (toU64 addr &&& 0x0000FF00) >>> 8)
              | none => .error (.labelNotFound ("The label " ++ label ++ " was not found!"))
            else
              .error (.labelNotFound ("The instruction " ++ t.opcode ++ " cannot take label operands!"))
          match immRes with
          | .error e => .error e
          | .ok new_imm =>
            (substitute_labels rest table).map
              (fun ns => .InstrTokens { t with immediate := some new_imm, op_label := none } :: ns)

example : substitute_labels
    [.InstrTokens ⟨none, "MOVLI", some "$g8", none, none, none, some "@target"⟩]
    [("target", 0x1014)] =
    .ok [.InstrTokens ⟨none, "MOVLI", some "$g8", none, none, some 0x14, none⟩] := by
  exact rfl

/-- C3 counterexample: a `JUMP` with an operand label expands to 5
instructions, not the 3 the claim states. -/
theorem c3_branch_expansion_counterexample :
    (substitute_pseudo_instrs
      [.InstrTokens ⟨none, "JUMP", some "$g8", some "$g9", none, none, some "@loop"⟩]).length
      = 5 ∧ (5 : Nat) ≠ 3 :=
  ⟨rfl, by decide⟩

/-- C3 amended: a branch instruction (`JUMP`, `JAL`, `BEQ`, `BNE`, `BLT`,
`BGT`) whose `op_label` is set is replaced by exactly 5 instructions:
`MOVLI op_a` and `MOVUI op_a` with the `u`-prefixed label, `MOVLI op_b`
and `MOVUI op_b` with the `l`-prefixed label, then the original branch
opcode with operands `op_a`, `op_b` (and `op_c`) and `op_label`
cleared. -/
theorem c3_branch_expansion_amended (t : InstrTokens) (rest : List FileTokens) (l : String)
    (hop : t.opcode = "JUMP" ∨ t.opcode = "JAL" ∨ t.opcode = "BEQ" ∨ t.opcode = "BNE" ∨
           t.opcode = "BLT" ∨ t.opcode = "BGT")
    (hl : t.op_label = some l) :
    substitute_pseudo_instrs (.InstrTokens t :: rest) =
      .InstrTokens ⟨t.label, "MOVLI", t.operand_a, none, none, none, some ("u" ++ l)⟩ ::
      .InstrTokens ⟨none, "MOVUI", t.operand_a, none, none, none, some ("u" ++ l)⟩ ::
      .InstrTokens ⟨none, "MOVLI", t.operand_b, none, none, none, some ("l" ++ l)⟩ ::
      .InstrTokens ⟨none, "MOVUI", t.operand_b, none, none, none, some ("l" ++ l)⟩ ::
      .InstrTokens ⟨none, t.opcode, t.operand_a, t.operand_b, t.operand_c, none, none⟩ ::
      substitute_pseudo_instrs rest := by
  have h1 : ¬(t.opcode = "LOAD" ∨ t.opcode = "STORE") := by
    rcases hop with h | h | h | h | h | h <;> rw [h] <;> decide
  have h2 : t.opcode ≠ "MOVLI" ∧ t.opcode ≠ "MOVUI" := by
    rcases hop with h | h | h | h | h | h <;> rw [h] <;> exact ⟨by decide, by decide⟩
  simp [substitute_pseudo_instrs, hl, h1, h2]

/-- Witness for C3 (amended) at a concrete labelled `BEQ`. -/
theorem c3_branch_expansion_amended_witness :
    substitute_pseudo_instrs
      [.InstrTokens ⟨some "lbl", "BEQ", some "$g3", some "$g4", none, none, some "@x"⟩] =
      [.InstrTokens ⟨some "lbl", "MOVLI", some "$g3", none, none, none, some "u@x"⟩,
       .InstrTokens ⟨none, "MOVUI", some "$g3", none, none, none, some "u@x"⟩,
       .InstrTokens ⟨none, "MOVLI", some "$g4", none, none, none, some "l@x"⟩,
       .InstrTokens ⟨none, "MOVUI", some "$g4", none, none, none, some "l@x"⟩,
       .InstrTokens ⟨none, "BEQ", some "$g3", some "$g4", none, none, none⟩] := by
  have h := c3_branch_expansion_amended
    ⟨some "lbl", "BEQ", some "$g3", some "$g4", none, none, some "@x"⟩ [] "@x"
    (by decide) rfl
  simpa using h

/-- The record label of any `FileTokens`. -/
def token_label : FileTokens → Option String
  | .InstrTokens t => t.label
  | .DataTokens t => t.label
  | .TextTokens t => t.label

/-- C5 (code bug): a `LOAD` carrying both a record label and an operand
label loses its record label entirely under expansion — the first emitted
`MOVLI` is built with label `None` (`src/pseudo_substitution.rs` line 18),
and no emitted instruction carries `loop` (branches, by contrast, keep the
label on the first `MOVLI`, line 22).  The terminal instruction does have
`op_label` cleared. -/
theorem c5_load_expansion_drops_record_label :
    substitute_pseudo_instrs
      [.InstrTokens ⟨some "loop", "LOAD", some "$g0", some "$g1", some "$g2", none, some "@x"⟩] =
      [.InstrTokens ⟨none, "MOVLI", some "$g1", none, none, none, some "l@x"⟩,
       .InstrTokens ⟨none, "MOVUI", some "$g1", none, none, none, some "l@x"⟩,
       .InstrTokens ⟨none, "LOAD", some "$g0", some "$g1", some "$g2", none, none⟩] ∧
    ((substitute_pseudo_instrs
      [.InstrTokens ⟨some "loop", "LOAD", some "$g0", some "$g1", some "$g2", none, some "@x"⟩]).map
        token_label).contains (some "loop") = false :=
  ⟨rfl, rfl⟩

/-- C4 counterexample: a `MOVLI` whose operand label carries the `u`
prefix (as produced for the first register of every branch expansion)
receives bits 23-16 of the address, not the low byte `addr & 0xFF` the
claim states: with `x ↦ 0x1234` the immediate becomes `0`, not `0x34`. -/
theorem c4_substitute_labels_counterexample :
    substitute_labels
      [.InstrTokens ⟨none, "MOVLI", some "$g3", none, none, none, some "u@x"⟩]
      [("x", 0x1234)] =
      .ok [.InstrTokens ⟨none, "MOVLI", some "$g3", none, none, some 0, none⟩] ∧
    (0 : Nat) ≠ 0x1234 &&& 0xFF :=
  ⟨rfl, by decide⟩

/-- C4 amended: when the referenced label `name` (no `@` in it) resolves to
`addr`, the Label Substituter stores in `immediate` — clearing `op_label` —
the byte selected by the operand label's one-character prefix: for an
unprefixed `@name` or an `l`-prefixed `l@name`, `MOVLI` gets
`addr & 0xFF` and `MOVUI` gets `(addr >> 8) & 0xFF` (the address read as
`u64`); but for a `u`-prefixed `u@name` (produced by every branch
expansion), `MOVLI` gets `(addr >> 16) & 0xFF` and `MOVUI` gets
`(addr >> 24) & 0xFF`. -/
theorem c4_substitute_labels_amended
    (lbl a b c : Option String) (imm : Option Nat)
    (rest : List FileTokens) (table : List (String × Int)) (name : String) (addr : Int)
    (hname : name.data.all (fun ch => ch ≠ '@') = true)
    (haddr : List.lookup name table = some addr) :
    (substitute_labels
        (.InstrTokens ⟨lbl, "MOVLI", a, b, c, imm, some ("@" ++ name)⟩ :: rest) table =
      (substitute_labels rest table).map
        (fun ns => .InstrTokens ⟨lbl, "MOVLI", a, b, c, some (toU64 addr &&& 0xFF), none⟩ :: ns)) ∧
    (substitute_labels
        (.InstrTokens ⟨lbl, "MOVLI", a, b, c, imm, some ("l@" ++ name)⟩ :: rest) table =
      (substitute_labels rest table).map
        (fun ns => .InstrTokens ⟨lbl, "MOVLI", a, b, c, some (toU64 addr &&& 0xFF), none⟩ :: ns)) ∧
    (substitute_labels
        (.InstrTokens ⟨lbl, "MOVLI", a, b, c, imm, some ("u@" ++ name)⟩ :: rest) table =
      (substitute_labels rest table).map
        (fun ns => .InstrTokens
          ⟨lbl, "MOVLI", a, b, c, some ((toU64 addr &&& 0xFF0000) >>> 16), none⟩ :: ns)) ∧
    (substitute_labels
        (.InstrTokens ⟨lbl, "MOVUI", a, b, c, imm, some ("@" ++ name)⟩ :: rest) table =
      (substitute_labels rest table).map
        (fun ns => .InstrTokens
          ⟨lbl, "MOVUI", a, b, c, some ((toU64 addr &&& 0xFF00) >>> 8), none⟩ :: ns)) ∧
    (substitute_labels
        (.InstrTokens ⟨lbl, "MOVUI", a, b, c, imm, some ("l@" ++ name)⟩ :: rest) table =
      (substitute_labels rest table).map
        (fun ns => .InstrTokens
          ⟨lbl, "MOVUI", a, b, c, some ((toU64 addr &&& 0xFF00) >>> 8), none⟩ :: ns)) ∧
    (substitute_labels
        (.InstrTokens ⟨lbl, "MOVUI", a, b, c, imm, some ("u@" ++ name)⟩ :: rest) table =
      (substitute_labels rest table).map
        (fun ns => .InstrTokens
          ⟨lbl, "MOVUI", a, b, c, some ((toU64 addr &&& 0xFF000000) >>> 24), none⟩ :: ns)) := by
  have hdata1 : ("@" ++ name).data = '@' :: name.data := rfl
  have hdata2 : ("l@" ++ name).data = 'l' :: '@' :: name.data := rfl
  have hdata3 : ("u@" ++ name).data = 'u' :: '@' :: name.data := rfl
  have hfilt : List.filter (fun ch => !decide (ch = '@')) name.data = name.data := by
    rw [List.filter_eq_self]
    intro x hx
    simpa using List.all_eq_true.mp hname x hx
  have heta : (⟨name.data⟩ : String) = name := rfl
  refine ⟨?_, ?_, ?_, ?_, ?_, ?_⟩ <;>
    simp [substitute_labels, hdata1, hdata2, hdata3, hfilt, heta, haddr]

/-- Witness for C4 (amended): `x ↦ 0x1234` with each of the six forms. -/
theorem c4_substitute_labels_amended_witness :
    substitute_labels
      [.InstrTokens ⟨none, "MOVUI", some "$g3", none, none, none, some "l@x"⟩]
      [("x", 0x1234)] =
      .ok [.InstrTokens ⟨none, "MOVUI", some "$g3", none, none, some 0x12, none⟩] := by
  have h := (c4_substitute_labels_amended none (some "$g3") none none none []
    [("x", 0x1234)] "x" 0x1234 (by decide) (by decide)).2.2.2.2.1
  simpa using h

/-! ### Label resolution (`src/label_table.rs`) -/

/-- The loop state of `generate_label_table`: the three address counters
(all `i64`), the section mode and the accumulated label table (a `HashMap`
with unique keys, modelled as an association list in insertion order). -/
structure LTState where
  instr_addr : Int
  data_addr : Int
  text_addr : Int
  mode : Char
  table : List (String × Int)
deriving Repr, DecidableEq

/-- `let page_size = 0x1000` from `src/label_table.rs` line 11. -/
def page_size : Int := 0x1000

/-- One iteration of the `generate_label_table` loop
(`src/label_table.rs` lines 16-95).  The first data record seen in mode
`'c'` bumps the data and text counters by one page; the first text record
seen outside mode `'t'` bumps the text counter by one page; a labelled
record binds its label to the relevant counter before advancing it; a
labelled data/text record advances its counter by `bytes.len()`, an
unlabelled one by `1`; completing an instruction page or a data page bumps
the later counters by one page. -/
def glt_step (s : LTState) (t : FileTokens) : Except String LTState :=
  match t with
  | .DataTokens t =>
    let s := if s.mode = 'c' then
        { s with data_addr := s.data_addr + page_size,
                 text_addr := s.text_addr + page_size, mode := 'd' }
      else s
    match t.label with
    | some label =>
      if s.table.any (fun p => p.1 = label) then
        .error ("Duplicate label " ++ label ++ " detected!")
      else
        let num_bytes : Int := t.bytes.length
        let table := s.table ++ [(label, s.data_addr)]
        let data_addr := s.data_addr + num_bytes
        let text_addr :=
          if data_addr % page_size = 0 ∧ data_addr ≠ 0 then s.text_addr + page_size
          else s.text_addr
        .ok { s with table := table, data_addr := data_addr, text_addr := text_addr }
    | none =>
      let data_addr := s.data_addr + 1
      let text_addr :=
        if data_addr % page_size = 0 ∧ data_addr ≠ 0 then s.text_addr + page_size
        else s.text_addr
      .ok { s with data_addr := data_addr, text_addr := text_addr }
  | .TextTokens t =>
    let s := if s.mode ≠ 't' then
        { s with text_addr := s.text_addr + page_size, mode := 't' }
      else s
    match t.label with
    | some label =>
      if s.table.any (fun p => p.1 = label) then
        .error ("Duplicate label " ++ label ++ " detected!")
      else
        let num_bytes : Int := t.bytes.length
        .ok { s with table := s.table ++ [(label, s.text_addr)],
                     text_addr := s.text_addr + num_bytes }
    | none => .ok { s with text_addr := s.text_addr + 1 }
  | .InstrTokens t =>
    match t.label with
    | some label =>
      if s.table.any (fun p => p.1 = label) then
        .error ("Duplicate label " ++ label ++ " detected!")
      else
        let table := s.table ++ [(label, s.instr_addr)]
        let instr_addr := s.instr_addr + 1
        if instr_addr % page_size = 0 ∧ instr_addr ≠ 0 then
          .ok { s with table := table, instr_addr := instr_addr,
                       data_addr := s.data_addr + page_size,
                       text_addr := s.text_addr + page_size }
        else .ok { s with table := table, instr_addr := instr_addr }
    | none =>
      let instr_addr := s.instr_addr + 1
      if instr_addr % page_size = 0 ∧ instr_addr ≠ 0 then
        .ok { s with instr_addr := instr_addr,
                     data_addr := s.data_addr + page_size,
                     text_addr := s.text_addr + page_size }
      else .ok { s with instr_addr := instr_addr }

/-- The `for tokens in tokens_stream` loop of `generate_label_table`. -/
def glt_go : List FileTokens → LTState → Except String LTState
  | [], s => .ok s
  | t :: ts, s =>
    match glt_step s t with
    | .error e => .error e
    | .ok s2 => glt_go ts s2

/-- `generate_label_table` from `src/label_table.rs` (lines 9-98): all
counters start at `0`, mode at `'c'`, table empty. -/
def generate_label_table (tokens_stream : List FileTokens) :
    Except String (List (String × Int)) :=
  (glt_go tokens_stream ⟨0, 0, 0, 'c', []⟩).map (fun s => s.table)

example : generate_label_table
    [.InstrTokens ⟨some "start", "NOP", none, none, none, none, none⟩,
     .InstrTokens ⟨none, "HALT", none, none, none, none, none⟩,
     .DataTokens ⟨some "target", "int", [42]⟩] =
    .ok [("start", 0), ("target", 4096)] := rfl

example : generate_label_table
    [.InstrTokens ⟨some "a", "NOP", none, none, none, none, none⟩,
     .InstrTokens ⟨some "a", "NOP", none, none, none, none, none⟩] =
    .error ("Duplicate label " ++ "a" ++ " detected!") := rfl

lemma lookup_append_some {L : String} {xs ys : List (String × Int)} {a : Int}
    (h : List.lookup L xs = some a) : List.lookup L (xs ++ ys) = some a := by
  induction xs with
  | nil => simp [List.lookup] at h
  | cons p xs ih =>
    cases p with
    | mk k v =>
      cases hk : (L == k) <;> simp [List.lookup, hk] at h ⊢
      · exact ih h
      · exact h

lemma glt_step_table_extend {s : LTState} {t : FileTokens} {s2 : LTState}
    (h : glt_step s t = .ok s2) : ∃ ys, s2.table = s.table ++ ys := by
  rcases t with t | t | t <;>
    rcases ht : t.label with _ | l <;>
      simp only [glt_step, ht] at h <;>
      (try split_ifs at h) <;>
      cases h <;>
      first
        | exact ⟨_, rfl⟩
        | exact ⟨[], by simp⟩

lemma glt_go_table_extend {ts : List FileTokens} : ∀ {s s2 : LTState},
    glt_go ts s = .ok s2 → ∃ ys, s2.table = s.table ++ ys := by
  induction ts with
  | nil =>
    intro s s2 h
    simp only [glt_go, Except.ok.injEq] at h
    exact ⟨[], by simp [← h]⟩
  | cons t ts ih =>
    intro s s2 h
    simp only [glt_go] at h
    cases hstep : glt_step s t with
    | error e => rw [hstep] at h; cases h
    | ok s1 =>
      simp only [hstep] at h
      obtain ⟨ys1, h1⟩ := glt_step_table_extend hstep
      obtain ⟨ys2, h2⟩ := ih h
      exact ⟨ys1 ++ ys2, by rw [h2, h1, List.append_assoc]⟩

/-- The label table only grows during resolution, so a binding made at any
point survives into the final table. -/
lemma glt_go_lookup_preserved {ts : List FileTokens} {s s2 : LTState} {L : String} {a : Int}
    (h : glt_go ts s = .ok s2) (hl : List.lookup L s.table = some a) :
    List.lookup L s2.table = some a := by
  obtain ⟨ys, hys⟩ := glt_go_table_extend h
  rw [hys]
  exact lookup_append_some hl

lemma glt_go_append (xs ys : List FileTokens) : ∀ s, glt_go (xs ++ ys) s =
    match glt_go xs s with
    | .ok s1 => glt_go ys s1
    | .error e => .error e := by
  induction xs with
  | nil => intro s; simp [glt_go]
  | cons t xs ih =>
    intro s
    simp only [List.cons_append, glt_go]
    cases glt_step s t with
    | error e => rfl
    | ok s1 => exact ih s1

/-- An instruction record with no label. -/
def unlabeled_instr : FileTokens → Bool
  | .InstrTokens t => t.label.isNone
  | _ => false

/-- Running the resolver over unlabelled instructions (below the first
page boundary) only advances the instruction counter. -/
lemma glt_go_unlabeled_instrs (pre : List FileTokens) :
    ∀ (k da ta : Int) (tbl : List (String × Int)),
    pre.all unlabeled_instr = true → 0 ≤ k → k + pre.length < page_size →
    glt_go pre ⟨k, da, ta, 'c', tbl⟩ = .ok ⟨k + pre.length, da, ta, 'c', tbl⟩ := by
  induction pre with
  | nil => intro k da ta tbl _ _ _; simp [glt_go]
  | cons t pre ih =>
    intro k da ta tbl hall hk hlen
    simp only [List.all_cons, Bool.and_eq_true] at hall
    rcases t with it | dt | tt
    · have hlab : it.label = none := by
        simpa [unlabeled_instr, Option.isNone_iff_eq_none] using hall.1
      have hlen2 : k + 1 + (pre.length : Int) < page_size := by
        simp only [List.length_cons] at hlen
        push_cast at hlen ⊢
        omega
      have hcond : ¬((k + 1) % page_size = 0 ∧ k + 1 ≠ 0) := by
        have hmod : (k + 1) % page_size = k + 1 :=
          Int.emod_eq_of_lt (by omega) (by simp only [page_size] at hlen2 ⊢; omega)
        simp only [hmod]
        omega
      simp only [glt_go, glt_step, hlab, if_neg hcond]
      have := ih (k + 1) da ta tbl hall.2 (by omega) hlen2
      rw [this]
      congr 1
      simp only [List.length_cons]
      push_cast
      ring_nf
    · simp [unlabeled_instr] at hall
    · simp [unlabeled_instr] at hall

/-- C2 counterexample: the resolver does not use the fixed bases
`0x2400`/`0x8800`.  On the stream `start: NOP ; target: .int 42` the label
on the first instruction record binds to `0x0000` and the label on the
first data record to `0x1000` (one page). -/
theorem c2_label_table_counterexample :
    generate_label_table
      [.InstrTokens ⟨some "start", "NOP", none, none, none, none, none⟩,
       .DataTokens ⟨some "target", "int", [42]⟩] =
      .ok [("start", 0), ("target", 4096)] ∧
    (0 : Int) ≠ 0x2400 ∧ (4096 : Int) ≠ 0x8800 :=
  ⟨rfl, by decide, by decide⟩

/-- C2 amended: the layout is page-based from zero, not the fixed bases
the claim states: a label on the first instruction record binds to
`0x0000`; a label on the first data record binds to `0x1000` (= one
`page_size`) whenever fewer than one page of (unlabelled) instructions
precede it; and text records do not share the data counter — they use a
separate text counter, bumped one further page at the first text record
(`target: .int` then `T: .text` binds `T` to `0x2000`, not to the data
counter's `0x1001`). -/
theorem c2_label_table_amended :
    (∀ (i : InstrTokens) (M : String) (rest : List FileTokens)
        (tbl : List (String × Int)),
      i.label = some M →
      generate_label_table (.InstrTokens i :: rest) = .ok tbl →
      List.lookup M tbl = some 0) ∧
    (∀ (pre : List FileTokens) (d : DataTokens) (L : String) (rest : List FileTokens)
        (tbl : List (String × Int)),
      pre.all unlabeled_instr = true → (pre.length : Int) < page_size →
      d.label = some L →
      generate_label_table (pre ++ .DataTokens d :: rest) = .ok tbl →
      List.lookup L tbl = some page_size) ∧
    generate_label_table
      [.DataTokens ⟨none, "int", [1]⟩, .TextTokens ⟨some "T", [2, 3]⟩] =
      .ok [("T", 8192)] := by
  refine ⟨?_, ?_, rfl⟩
  · intro i M rest tbl hM hok
    unfold generate_label_table at hok
    cases hgo : glt_go (.InstrTokens i :: rest) ⟨0, 0, 0, 'c', []⟩ with
    | error e => rw [hgo] at hok; cases hok
    | ok send =>
      rw [hgo] at hok
      simp only [Except.map, Except.ok.injEq] at hok
      subst hok
      have hstep : glt_step ⟨0, 0, 0, 'c', []⟩ (.InstrTokens i) =
          .ok ⟨1, 0, 0, 'c', [(M, 0)]⟩ := by
        simp [glt_step, hM, page_size]
      simp only [glt_go, hstep] at hgo
      exact glt_go_lookup_preserved hgo (by simp [List.lookup])
  · intro pre d L rest tbl hall hlen hL hok
    unfold generate_label_table at hok
    cases hgo : glt_go (pre ++ .DataTokens d :: rest) ⟨0, 0, 0, 'c', []⟩ with
    | error e => rw [hgo] at hok; cases hok
    | ok send =>
      rw [hgo] at hok
      simp only [Except.map, Except.ok.injEq] at hok
      subst hok
      rw [glt_go_append] at hgo
      rw [glt_go_unlabeled_instrs pre 0 0 0 [] hall (le_refl 0) (by simpa using hlen)] at hgo
      simp only [glt_go] at hgo
      cases hstep : glt_step ⟨0 + (pre.length : Int), 0, 0, 'c', []⟩ (.DataTokens d) with
      | error e => rw [hstep] at hgo; cases hgo
      | ok s1 =>
        rw [hstep] at hgo
        simp only [glt_step, hL] at hstep
        split_ifs at hstep <;>
          cases hstep <;>
            exact glt_go_lookup_preserved hgo (by simp [List.lookup])

/-- Witness for C2 (amended): applying both universally quantified parts
at concrete one- and two-record streams. -/
theorem c2_label_table_amended_witness :
    List.lookup "s0" [("s0", (0 : Int))] = some 0 ∧
    List.lookup "t0" [("t0", (4096 : Int))] = some 4096 := by
  constructor
  · exact c2_label_table_amended.1
      ⟨some "s0", "NOP", none, none, none, none, none⟩ "s0" [] _ rfl rfl
  · exact c2_label_table_amended.2.1
      [.InstrTokens ⟨none, "NOP", none, none, none, none, none⟩]
      ⟨some "t0", "int", [7]⟩ "t0" [] _ (by decide) (by decide) rfl rfl

/-- C6 counterexample: an unlabelled data record advances the data counter
by `1`, not by the length of its bytes array.  After an unlabelled
two-word record the next label binds to `0x1001`, where advancing by
`bytes.len()` would give `0x1002`. -/
theorem c6_label_table_counterexample :
    generate_label_table
      [.DataTokens ⟨none, "long", [1, 2]⟩, .DataTokens ⟨some "x", "int", [9]⟩] =
      .ok [("x", 4097)] ∧ (4097 : Int) ≠ 4096 + 2 :=
  ⟨rfl, by decide⟩

/-- C6 amended: in data mode a labelled data record binds its label to the
data counter before advancement and advances it by `bytes.len()`, but an
unlabelled data record advances it by `1` regardless of its length; and a
text record advances the separate text counter (its own `bytes.len()` or
`1`), leaving the data counter untouched, with its label likewise bound
before advancement. -/
theorem c6_label_table_advance_amended (s1 s2 : LTState) (d : DataTokens) (tx : TextTokens)
    (h1 : s1.mode = 'd') (h2 : s2.mode = 't') :
    (∀ L, d.label = some L → (s1.table.any fun p => p.1 = L) = false →
      ∃ s', glt_step s1 (.DataTokens d) = .ok s' ∧
        s'.data_addr = s1.data_addr + d.bytes.length ∧
        s'.table = s1.table ++ [(L, s1.data_addr)] ∧
        s'.instr_addr = s1.instr_addr) ∧
    (d.label = none →
      ∃ s', glt_step s1 (.DataTokens d) = .ok s' ∧
        s'.data_addr = s1.data_addr + 1 ∧ s'.table = s1.table) ∧
    (∀ L, tx.label = some L → (s2.table.any fun p => p.1 = L) = false →
      ∃ s', glt_step s2 (.TextTokens tx) = .ok s' ∧
        s'.text_addr = s2.text_addr + tx.bytes.length ∧
        s'.data_addr = s2.data_addr ∧
        s'.table = s2.table ++ [(L, s2.text_addr)]) ∧
    (tx.label = none →
      ∃ s', glt_step s2 (.TextTokens tx) = .ok s' ∧
        s'.text_addr = s2.text_addr + 1 ∧ s'.data_addr = s2.data_addr ∧
        s'.table = s2.table) := by
  refine ⟨?_, ?_, ?_, ?_⟩
  · intro L hL hdup
    cases hstep : glt_step s1 (.DataTokens d) with
    | error e => simp [glt_step, hL, h1, hdup] at hstep
    | ok sr =>
      have h3 := hstep
      simp [glt_step, hL, h1, hdup] at h3
      subst h3
      exact ⟨_, rfl, rfl, rfl, rfl⟩
  · intro hL
    cases hstep : glt_step s1 (.DataTokens d) with
    | error e => simp [glt_step, hL, h1] at hstep
    | ok sr =>
      have h3 := hstep
      simp [glt_step, hL, h1] at h3
      subst h3
      exact ⟨_, rfl, rfl, rfl⟩
  · intro L hL hdup
    cases hstep : glt_step s2 (.TextTokens tx) with
    | error e => simp [glt_step, hL, h2, hdup] at hstep
    | ok sr =>
      have h3 := hstep
      simp [glt_step, hL, h2, hdup] at h3
      subst h3
      exact ⟨_, rfl, rfl, rfl, rfl⟩
  · intro hL
    cases hstep : glt_step s2 (.TextTokens tx) with
    | error e => simp [glt_step, hL, h2] at hstep
    | ok sr =>
      have h3 := hstep
      simp [glt_step, hL, h2] at h3
      subst h3
      exact ⟨_, rfl, rfl, rfl, rfl⟩

/-- Witness for C6 (amended) at concrete states in data and text mode. -/
theorem c6_label_table_advance_amended_witness :
    (∃ s', glt_step ⟨0, 10, 20, 'd', []⟩ (.DataTokens ⟨some "L", "int", [1, 2, 3]⟩) = .ok s' ∧
      s'.data_addr = 13 ∧ s'.table = [("L", 10)]) ∧
    (∃ s', glt_step ⟨0, 10, 20, 't', []⟩ (.TextTokens ⟨none, [5, 6]⟩) = .ok s' ∧
      s'.text_addr = 21 ∧ s'.data_addr = 10) := by
  have h := c6_label_table_advance_amended ⟨0, 10, 20, 'd', []⟩ ⟨0, 10, 20, 't', []⟩
    ⟨some "L", "int", [1, 2, 3]⟩ ⟨none, [5, 6]⟩ rfl rfl
  constructor
  · obtain ⟨s', hs, hd, ht, _⟩ := h.1 "L" rfl (by decide)
    exact ⟨s', hs, by rw [hd]; norm_num, by rw [ht]; simp⟩
  · obtain ⟨s', hs, hta, hda, _⟩ := h.2.2.2 rfl
    exact ⟨s', hs, by rw [hta]; norm_num, by rw [hda]⟩

/-! ### The Line Reader's section-mode register (`src/main.rs`) -/

/-- The mode update applied to each trimmed, non-empty line by the loop of
`process_file_into_tokens` (`src/main.rs` lines 28-35): a bare `data:`
line sets the mode to `'d'` and a bare `text:` line to `'t'` —
unconditionally, whatever the current mode; every other line leaves the
register unchanged. -/
def section_mode_step (mode : Char) (line : String) : Char :=
  if line = "data:" then 'd' else if line = "text:" then 't' else mode

/-- The section mode after processing the given lines in order (the
register starts at `'c'`). -/
def section_mode_after (lines : List String) : Char :=
  lines.foldl section_mode_step 'c'

/-- C10 counterexample: after `text:` a bare `data:` line changes the mode
back to data — the register does not stay in text mode. -/
theorem c10_mode_counterexample :
    section_mode_after ["text:", "data:"] = 'd' ∧ 'd' ≠ 't' :=
  ⟨rfl, by decide⟩

lemma foldl_mode_no_directives (suf : List String) :
    ∀ m, (∀ l ∈ suf, l ≠ "data:" ∧ l ≠ "text:") →
    suf.foldl section_mode_step m = m := by
  induction suf with
  | nil => intro m _; rfl
  | cons x suf ih =>
    intro m hx
    have h1 := hx x (by simp)
    simp only [List.foldl_cons, section_mode_step, h1.1, h1.2, if_false]
    exact ih m (fun l hl => hx l (by simp [hl]))

/-- C10 amended: the section-mode register obeys the bare directives
unconditionally — after any prefix of lines, a `data:` line puts it in
data mode and a `text:` line in text mode, and it keeps that value across
non-directive lines; in particular text mode is not absorbing (a later
`data:` leaves it, as the counterexample shows). -/
theorem c10_mode_last_directive_wins (pre suf : List String)
    (hsuf : ∀ l ∈ suf, l ≠ "data:" ∧ l ≠ "text:") :
    section_mode_after (pre ++ "data:" :: suf) = 'd' ∧
    section_mode_after (pre ++ "text:" :: suf) = 't' := by
  constructor
  · unfold section_mode_after
    rw [List.foldl_append, List.foldl_cons,
      show section_mode_step (List.foldl section_mode_step 'c' pre) "data:" = 'd' by
        simp [section_mode_step]]
    exact foldl_mode_no_directives suf 'd' hsuf
  · unfold section_mode_after
    rw [List.foldl_append, List.foldl_cons,
      show section_mode_step (List.foldl section_mode_step 'c' pre) "text:" = 't' by
        simp [section_mode_step]]
    exact foldl_mode_no_directives suf 't' hsuf

/-- Witness for C10 (amended): a `data:` directive after `text:` with a
trailing ordinary line. -/
theorem c10_mode_last_directive_wins_witness :
    section_mode_after (["text:"] ++ "data:" :: ["NOP"]) = 'd' :=
  (c10_mode_last_directive_wins ["text:"] ["NOP"] (by decide)).1

end Iridium
